import Mathlib

/-!
Shallow embedding of the csv-excel-transposer converter: the Table data model,
the text-mode reader and writer, the workbook writer and reader, the shape
transform, the error type raised by the two conversion functions, a small file
system model threading the conversions, the CLI command wrappers and the sheet
identifier coercion.  Cell contents are modelled by their textual form.
-/

/-- Cells of a table are modelled by their textual content. -/
abbrev Cell := List Char

/-- In-memory table mirroring a dataframe: ordered column labels, ordered row
labels (the index) and the data rows. -/
structure Table where
  colLabels : List Cell
  rowLabels : List Cell
  rows : List (List Cell)
  deriving DecidableEq

/-- Decimal rendering of a positional label, as a range index entry prints. -/
def natLabel (n : Nat) : Cell := Nat.toDigits 10 n

/-- Positional labels for k rows or columns. -/
def synthLabels (k : Nat) : List Cell := (List.range k).map natLabel

/-- Split a character list at every occurrence of the separator character. -/
def splitOnChar (c : Char) : List Char → List (List Char)
  | [] => [[]]
  | x :: xs =>
    if x = c then [] :: splitOnChar c xs
    else
      match splitOnChar c xs with
      | [] => [[x]]
      | y :: ys => (x :: y) :: ys

/-- Join fields with the separator character; inverse of splitOnChar on
nonempty lists of separator-free fields. -/
def joinWithChar (c : Char) : List (List Char) → List Char
  | [] => []
  | [p] => p
  | p :: ps => p ++ c :: joinWithChar c ps

/-- One serialized text line: cells joined by the delimiter and terminated by
the newline character the writer passes as line terminator. -/
def csvLine (d : Char) (cells : List Cell) : List Char :=
  joinWithChar d cells ++ ['\n']

/-- Serialization of a list of rows to delimited text, each line
newline-terminated. -/
def encodeCsv (d : Char) (rows : List (List Cell)) : List Char :=
  (rows.map (csvLine d)).flatten

/-- Text-mode reader mirroring the read step of the converter: decode into
lines (blank lines skipped, as the dataframe reader does by default) and split
each line at the delimiter; with the header flag the first line becomes the
column labels and is excluded from the data, otherwise positional column
labels are synthesized and every line is data; the row index is positional in
both cases.  An input with no parseable line is a decode error. -/
def readCsvText (d : Char) (hasHeader : Bool) (text : List Char) :
    Except String Table :=
  match (splitOnChar '\n' text).filter (fun l => !l.isEmpty) with
  | [] => Except.error "No columns to parse from file"
  | l0 :: rest =>
    if hasHeader then
      Except.ok ⟨splitOnChar d l0, synthLabels rest.length, rest.map (splitOnChar d)⟩
    else
      Except.ok ⟨synthLabels (splitOnChar d l0).length,
        synthLabels (rest.length + 1), (l0 :: rest).map (splitOnChar d)⟩

/-- Column j of the data rows, padding short rows with the empty cell. -/
def transposeRows (m : Nat) (rows : List (List Cell)) : List (List Cell) :=
  (List.range m).map (fun j => rows.map (fun r => r.getD j []))

/-- Shape transform, as frame.transpose: swap the data axes and swap the two
label sequences. -/
def transposeTable (t : Table) : Table :=
  ⟨t.rowLabels, t.colLabels, transposeRows t.colLabels.length t.rows⟩

/-- Conditional transpose as it appears in both conversion functions. -/
def applyTranspose (flag : Bool) (t : Table) : Table :=
  if flag then transposeTable t else t

/-- Rectangularity invariant of a reader-produced table: every data row is as
wide as the label row, and there is one row label per data row. -/
def Table.rect (t : Table) : Prop :=
  (∀ r ∈ t.rows, r.length = t.colLabels.length) ∧
    t.rowLabels.length = t.rows.length

/-- A worksheet is a grid of cells. -/
abbrev Worksheet := List (List Cell)

/-- A workbook is an ordered list of named worksheets. -/
abbrev Workbook := List (String × Worksheet)

/-- Worksheet produced by the workbook writer: the column labels always form
the first row; with the index flag the row labels are prepended to the data
rows and a blank cell for the unnamed index heads the label row. -/
def toExcelSheet (includeIndex : Bool) (t : Table) : Worksheet :=
  if includeIndex then
    ([] :: t.colLabels) :: List.zipWith (fun l r => l :: r) t.rowLabels t.rows
  else
    t.colLabels :: t.rows

/-- Reading a worksheet back with the workbook reader defaults: the first row
becomes the column labels, the remaining rows are data, the index is
positional. -/
def readExcelSheet (sheet : Worksheet) : Table :=
  match sheet with
  | [] => ⟨[], [], []⟩
  | hd :: tl => ⟨hd, synthLabels tl.length, tl⟩

/-- Tagged union for worksheet selection, by name or zero-based index. -/
inductive SheetSelector where
  | byName (s : String)
  | byIndex (i : Nat)
  deriving DecidableEq

/-- Textual form of the selector, used inside the reader error message. -/
def SheetSelector.describe : SheetSelector → String
  | .byName s => s
  | .byIndex i => toString i

/-- Select a worksheet by name or by zero-based position. -/
def findSheet (wb : Workbook) : SheetSelector → Option Worksheet
  | .byName n => (wb.find? (fun p => p.1 == n)).map (fun p => p.2)
  | .byIndex i => (wb[i]?).map (fun p => p.2)

/-- Structured form of the single ConversionError the converter raises, one
constructor per raise site. -/
inductive ConversionError where
  | csvNotFound (path : String)
  | excelNotFound (path : String)
  | readCsvFailed (path : String) (cause : String)
  | readExcelFailed (sheet : SheetSelector) (path : String) (cause : String)
  | writeExcelFailed (path : String) (cause : String)
  | writeCsvFailed (path : String) (cause : String)
  deriving DecidableEq

/-- Error kinds the design document assigns to the raise sites. -/
inductive ErrorKind where
  | sourceNotFound
  | decodeError
  | writeError
  deriving DecidableEq

/-- Classification of each raise site under the design error kinds. -/
def ConversionError.kind : ConversionError → ErrorKind
  | .csvNotFound _ => .sourceNotFound
  | .excelNotFound _ => .sourceNotFound
  | .readCsvFailed _ _ => .decodeError
  | .readExcelFailed _ _ _ => .decodeError
  | .writeExcelFailed _ _ => .writeError
  | .writeCsvFailed _ _ => .writeError

/-- Full diagnostic message of each raise site. -/
def ConversionError.message : ConversionError → String
  | .csvNotFound p => "CSV file not found: " ++ p
  | .excelNotFound p => "Excel workbook not found: " ++ p
  | .readCsvFailed p c => "Unable to read CSV \x27" ++ p ++ "\x27: " ++ c
  | .readExcelFailed s p c =>
    "Unable to read worksheet \x27" ++ s.describe ++ "\x27 from \x27" ++ p ++
      "\x27: " ++ c
  | .writeExcelFailed p c => "Unable to write Excel \x27" ++ p ++ "\x27: " ++ c
  | .writeCsvFailed p c => "Unable to write CSV \x27" ++ p ++ "\x27: " ++ c

/-- Stage-naming prefix of each diagnostic. -/
def ConversionError.stageText : ConversionError → String
  | .csvNotFound _ => "CSV file not found: "
  | .excelNotFound _ => "Excel workbook not found: "
  | .readCsvFailed _ _ => "Unable to read CSV \x27"
  | .readExcelFailed _ _ _ => "Unable to read worksheet \x27"
  | .writeExcelFailed _ _ => "Unable to write Excel \x27"
  | .writeCsvFailed _ _ => "Unable to write CSV \x27"

/-- Cause part of each diagnostic: the offending path, sheet and wrapped
underlying cause. -/
def ConversionError.causeText : ConversionError → String
  | .csvNotFound p => p
  | .excelNotFound p => p
  | .readCsvFailed p c => p ++ "\x27: " ++ c
  | .readExcelFailed s p c =>
    s.describe ++ "\x27 from \x27" ++ p ++ "\x27: " ++ c
  | .writeExcelFailed p c => p ++ "\x27: " ++ c
  | .writeCsvFailed p c => p ++ "\x27: " ++ c

/-- File contents: either delimited text or a workbook. -/
inductive FileContent where
  | csvFile (text : List Char)
  | excelFile (wb : Workbook)
  deriving DecidableEq

/-- A file system is a finite map from paths to contents; the first binding
for a path is its current content. -/
abbrev FS := List (String × FileContent)

/-- Current content of a path, if the file exists. -/
def fsLookup : FS → String → Option FileContent
  | [], _ => none
  | (q, v) :: rest, p => if q = p then some v else fsLookup rest p

/-- Writing a file binds the path to the new content. -/
def fsWrite (fs : FS) (p : String) (v : FileContent) : FS := (p, v) :: fs

/-- Writer for the data rows of text output: the matching row label is
prepended when the index flag is set; labels are consumed positionally
alongside the rows. -/
def writeCsvRows (d : Char) (includeIndex : Bool) :
    List Cell → List (List Cell) → List Char
  | _, [] => []
  | ls, r :: rs =>
    csvLine d (if includeIndex then ls.headD [] :: r else r) ++
      writeCsvRows d includeIndex ls.tail rs

/-- Text-mode writer mirroring the dataframe csv writer: an optional label
line first (with a blank leading cell for the unnamed index when the index is
included), then one newline-terminated line per data row. -/
def writeCsv (d : Char) (includeIndex includeHeader : Bool) (t : Table) :
    List Char :=
  (if includeHeader then
    csvLine d (if includeIndex then [] :: t.colLabels else t.colLabels)
  else []) ++ writeCsvRows d includeIndex t.rowLabels t.rows

/-- Model of csv_to_excel: existence check, text-mode read honoring the header
flag, optional transpose, then the workbook write with the label row always
present and the index column only on request.  Returns the file system after
the call and the raised error, if any; when an error is raised nothing has
been written. -/
def csv_to_excel (fs : FS) (csvPath excelPath : String) (sheetName : String)
    (delimiter : Char) (hasHeader transpose includeIndex : Bool) :
    FS × Option ConversionError :=
  match fsLookup fs csvPath with
  | none => (fs, some (.csvNotFound csvPath))
  | some (.excelFile _) => (fs, some (.readCsvFailed csvPath "not delimited text"))
  | some (.csvFile text) =>
    match readCsvText delimiter hasHeader text with
    | .error cause => (fs, some (.readCsvFailed csvPath cause))
    | .ok frame =>
      (fsWrite fs excelPath
        (.excelFile [(sheetName, toExcelSheet includeIndex (applyTranspose transpose frame))]),
        none)

/-- Model of excel_to_csv: existence check, worksheet selection and read,
optional transpose, then the text-mode write honoring the header and index
flags with the newline character as line terminator. -/
def excel_to_csv (fs : FS) (excelPath csvPath : String) (sel : SheetSelector)
    (delimiter : Char) (transpose includeIndex includeHeader : Bool) :
    FS × Option ConversionError :=
  match fsLookup fs excelPath with
  | none => (fs, some (.excelNotFound excelPath))
  | some (.csvFile _) => (fs, some (.readExcelFailed sel excelPath "not a workbook"))
  | some (.excelFile wb) =>
    match findSheet wb sel with
    | none => (fs, some (.readExcelFailed sel excelPath "worksheet not found"))
    | some sheet =>
      (fsWrite fs csvPath
        (.csvFile (writeCsv delimiter includeIndex includeHeader
          (applyTranspose transpose (readExcelSheet sheet)))),
        none)

/-- Outcome of one CLI command: resulting file system, exit code and the lines
printed to the standard error stream. -/
structure CliOutcome where
  fs : FS
  exitCode : Nat
  stderr : List String
  deriving DecidableEq

/-- The csv-to-excel command: runs the conversion; on a ConversionError it
prints the diagnostic and returns 1, otherwise it returns 0. -/
def commandCsvToExcel (fs : FS) (csvPath excelPath sheetName : String)
    (delimiter : Char) (hasHeader transpose includeIndex : Bool) : CliOutcome :=
  match csv_to_excel fs csvPath excelPath sheetName delimiter hasHeader
      transpose includeIndex with
  | (fs2, none) => ⟨fs2, 0, []⟩
  | (fs2, some e) => ⟨fs2, 1, ["conversion failed: " ++ e.message]⟩

/-- The excel-to-csv command: runs the conversion; on a ConversionError it
prints the diagnostic and returns 1, otherwise it returns 0. -/
def commandExcelToCsv (fs : FS) (excelPath csvPath : String)
    (sel : SheetSelector) (delimiter : Char)
    (transpose includeIndex includeHeader : Bool) : CliOutcome :=
  match excel_to_csv fs excelPath csvPath sel delimiter transpose includeIndex
      includeHeader with
  | (fs2, none) => ⟨fs2, 0, []⟩
  | (fs2, some e) => ⟨fs2, 1, ["conversion failed: " ++ e.message]⟩

/-- Leading and trailing whitespace removal, as the strip method does. -/
def stripChars (l : List Char) : List Char :=
  ((l.dropWhile Char.isWhitespace).reverse.dropWhile Char.isWhitespace).reverse

/-- Digit-string test over the modelled character set: nonempty and all
decimal digits. -/
def isDigitString (l : List Char) : Bool := !l.isEmpty && l.all Char.isDigit

/-- Decimal value of a digit string, as integer parsing computes it. -/
def digitsToNat (l : List Char) : Nat :=
  l.foldl (fun acc c => 10 * acc + (c.toNat - 48)) 0

/-- Coercion of a user supplied sheet identifier: strip surrounding
whitespace, then an all-digit string becomes a zero-based index and anything
else is a sheet name. -/
def sheetIdentifier (value : String) : SheetSelector :=
  let v := stripChars value.data
  if isDigitString v then .byIndex (digitsToNat v) else .byName (String.mk v)

/-- Splitting never produces an empty list of fields. -/
theorem splitOnChar_ne_nil (c : Char) (l : List Char) : splitOnChar c l ≠ [] := by
  cases l with
  | nil => simp [splitOnChar]
  | cons x xs =>
    simp only [splitOnChar]
    split
    · simp
    · split <;> simp

/-- Splitting a separator-free list yields the single original field. -/
theorem splitOnChar_of_not_mem (c : Char) (l : List Char) (h : c ∉ l) :
    splitOnChar c l = [l] := by
  induction l with
  | nil => rfl
  | cons x xs ih =>
    have hx : ¬ x = c := fun e => h (e ▸ List.mem_cons_self x xs)
    have hxs : c ∉ xs := fun hm => h (List.mem_cons_of_mem _ hm)
    simp [splitOnChar, if_neg hx, ih hxs]

/-- Splitting past a separator-free prefix and one separator peels one field. -/
theorem splitOnChar_append (c : Char) (p rest : List Char) (h : c ∉ p) :
    splitOnChar c (p ++ c :: rest) = p :: splitOnChar c rest := by
  induction p with
  | nil => simp [splitOnChar]
  | cons x xs ih =>
    have hx : ¬ x = c := fun e => h (e ▸ List.mem_cons_self x xs)
    have hxs : c ∉ xs := fun hm => h (List.mem_cons_of_mem _ hm)
    simp [List.cons_append, splitOnChar, if_neg hx, ih hxs]

/-- Splitting is a left inverse of joining, on nonempty lists of
separator-free fields. -/
theorem splitOnChar_joinWithChar (c : Char) (ps : List (List Char))
    (hne : ps ≠ []) (hfree : ∀ p ∈ ps, c ∉ p) :
    splitOnChar c (joinWithChar c ps) = ps := by
  induction ps with
  | nil => exact absurd rfl hne
  | cons p ps ih =>
    cases ps with
    | nil => exact splitOnChar_of_not_mem c p (hfree p (by simp))
    | cons q qs =>
      rw [show joinWithChar c (p :: q :: qs) = p ++ c :: joinWithChar c (q :: qs) from rfl]
      rw [splitOnChar_append c p _ (hfree p (by simp))]
      rw [ih (by simp) (fun r hr => hfree r (List.mem_cons_of_mem _ hr))]

/-- A character distinct from the separator and absent from every field is
absent from the join. -/
theorem not_mem_joinWithChar (c d : Char) (ps : List (List Char))
    (hcd : c ≠ d) (h : ∀ p ∈ ps, c ∉ p) : c ∉ joinWithChar d ps := by
  induction ps with
  | nil => simp [joinWithChar]
  | cons p ps ih =>
    cases ps with
    | nil => simpa [joinWithChar] using h p (by simp)
    | cons q qs =>
      rw [show joinWithChar d (p :: q :: qs) = p ++ d :: joinWithChar d (q :: qs) from rfl]
      intro hm
      rcases List.mem_append.mp hm with h1 | h2
      · exact h p (by simp) h1
      · rcases List.mem_cons.mp h2 with h3 | h4
        · exact hcd h3
        · exact ih (fun r hr => h r (List.mem_cons_of_mem _ hr)) h4

/-- Splitting newline-terminated encoded lines recovers the lines plus one
trailing empty field. -/
theorem splitOnChar_flatten_terminated (c : Char) (ls : List (List Char))
    (h : ∀ l ∈ ls, c ∉ l) :
    splitOnChar c ((ls.map (fun l => l ++ [c])).flatten) = ls ++ [[]] := by
  induction ls with
  | nil => simp [splitOnChar]
  | cons l ls ih =>
    simp only [List.map_cons, List.flatten_cons, List.append_assoc,
      List.singleton_append]
    rw [splitOnChar_append c l _ (h l (by simp))]
    rw [ih (fun r hr => h r (List.mem_cons_of_mem _ hr))]
    rfl

/-- Mapping split over joined rows recovers the rows. -/
theorem split_map_join (d : Char) (cells : List (List Cell))
    (hcells : ∀ r ∈ cells, r ≠ [])
    (hfree : ∀ r ∈ cells, ∀ x ∈ r, d ∉ x) :
    cells.map (fun r => splitOnChar d (joinWithChar d r)) = cells := by
  induction cells with
  | nil => rfl
  | cons r rs ih =>
    simp only [List.map_cons]
    rw [splitOnChar_joinWithChar d r (hcells r (by simp)) (hfree r (by simp))]
    rw [ih (fun s hs => hcells s (List.mem_cons_of_mem _ hs))
      (fun s hs => hfree s (List.mem_cons_of_mem _ hs))]

/-- Line decoding of encoded text: the nonblank lines are exactly the joined
rows, provided no line is blank and no cell holds the delimiter or a newline. -/
theorem decode_lines_encodeCsv (d : Char) (hd : d ≠ '\n')
    (cells : List (List Cell))
    (hfree : ∀ r ∈ cells, ∀ x ∈ r, d ∉ x ∧ '\n' ∉ x)
    (hlines : ∀ r ∈ cells, joinWithChar d r ≠ []) :
    (splitOnChar '\n' (encodeCsv d cells)).filter (fun l => !l.isEmpty) =
      cells.map (joinWithChar d) := by
  have henc : encodeCsv d cells =
      ((cells.map (joinWithChar d)).map (fun l => l ++ ['\n'])).flatten := by
    rw [encodeCsv, List.map_map]
    rfl
  rw [henc, splitOnChar_flatten_terminated '\n' _ (by
    intro l hl
    rcases List.mem_map.mp hl with ⟨r, hr, rfl⟩
    exact not_mem_joinWithChar '\n' d r (Ne.symm hd) (fun x hx => (hfree r hr x hx).2))]
  rw [List.filter_append]
  have h1 : (cells.map (joinWithChar d)).filter (fun l => !l.isEmpty) =
      cells.map (joinWithChar d) := by
    rw [List.filter_eq_self]
    intro a ha
    rcases List.mem_map.mp ha with ⟨r, hr, rfl⟩
    simpa [List.isEmpty_iff] using hlines r hr
  rw [h1]
  simp

/-- The index-free row writer concatenates one encoded line per row. -/
theorem writeCsvRows_false (d : Char) (ls : List Cell) (rs : List (List Cell)) :
    writeCsvRows d false ls rs = (rs.map (csvLine d)).flatten := by
  induction rs generalizing ls with
  | nil => rfl
  | cons r rs ih => simp [writeCsvRows, ih]

/-- The index-including row writer concatenates one encoded line per row, the
matching row label prepended. -/
theorem writeCsvRows_true (d : Char) (ls : List Cell) (rs : List (List Cell))
    (h : ls.length = rs.length) :
    writeCsvRows d true ls rs =
      ((List.zipWith (fun l r => l :: r) ls rs).map (csvLine d)).flatten := by
  induction rs generalizing ls with
  | nil =>
    cases ls with
    | nil => rfl
    | cons l ls => simp at h
  | cons r rs ih =>
    cases ls with
    | nil => simp at h
    | cons l ls =>
      have h2 : ls.length = rs.length := by simpa using h
      simp [writeCsvRows, ih ls h2]

/-- The transposed grid has one row per requested column. -/
theorem transposeRows_length (m : Nat) (rows : List (List Cell)) :
    (transposeRows m rows).length = m := by
  simp [transposeRows]

/-- Row i of the transposed grid collects cell i of every original row. -/
theorem transposeRows_getD (m : Nat) (rows : List (List Cell)) (i : Nat)
    (hi : i < m) :
    (transposeRows m rows).getD i [] = rows.map (fun r => r.getD i []) := by
  have hlen : i < (transposeRows m rows).length := by
    simpa [transposeRows_length] using hi
  rw [List.getD_eq_getElem _ _ hlen]
  simp only [transposeRows, List.getElem_map, List.getElem_range]

/-- Transposing twice restores a rectangular grid. -/
theorem transposeRows_involution (m : Nat) (rows : List (List Cell))
    (h : ∀ r ∈ rows, r.length = m) :
    transposeRows rows.length (transposeRows m rows) = rows := by
  apply List.ext_getElem
  · simp [transposeRows]
  · intro i h1 h2
    simp only [transposeRows, List.getElem_map, List.getElem_range]
    apply List.ext_getElem
    · simp [h rows[i] (List.getElem_mem h2)]
    · intro j hj1 hj2
      simp only [List.getElem_map, List.getElem_range]
      have hj : j < m := by simpa using hj1
      rw [List.getD_eq_getElem _ _ (by simpa using h2)]
      simp only [List.getElem_map]
      rw [List.getD_eq_getElem _ _ hj2]

/-- C2: applying the Shape Transform twice to a table satisfying the reader
rectangularity invariant returns a table equal to the original, row and column
labels included. -/
theorem c2_transpose_involution (t : Table) (h : t.rect) :
    transposeTable (transposeTable t) = t := by
  obtain ⟨h1, h2⟩ := h
  cases t with
  | mk cl rl rows =>
    simp only [transposeTable]
    have h2x : rl.length = rows.length := h2
    have h1x : ∀ r ∈ rows, r.length = cl.length := h1
    rw [Table.mk.injEq]
    refine ⟨rfl, rfl, ?_⟩
    rw [h2x]
    exact transposeRows_involution cl.length rows h1x

/-- Closed instance of the transpose involution at a concrete two-by-one
labelled table. -/
theorem c2_witness :
    transposeTable (transposeTable
        (Table.mk [['a'], ['b']] [['x']] [[['u'], ['v']]])) =
      Table.mk [['a'], ['b']] [['x']] [[['u'], ['v']]] :=
  c2_transpose_involution _ ⟨by decide, by decide⟩

/-- C4: with the flag set, the Shape Transform swaps the label sequences and
the cell at row i, column j of the output equals the cell at row j, column i
of the input; the transform is a total function on tables. -/
theorem c4_transpose_contract (t : Table) (i j : Nat)
    (hi : i < t.colLabels.length) (hj : j < t.rows.length) :
    (applyTranspose true t).colLabels = t.rowLabels ∧
    (applyTranspose true t).rowLabels = t.colLabels ∧
    ((applyTranspose true t).rows.getD i []).getD j [] =
      (t.rows.getD j []).getD i [] := by
  refine ⟨rfl, rfl, ?_⟩
  show ((transposeTable t).rows.getD i []).getD j [] = _
  simp only [transposeTable]
  rw [transposeRows_getD _ _ i hi]
  rw [List.getD_eq_getElem _ _ (by simpa using hj), List.getElem_map]
  rw [List.getD_eq_getElem _ _ hj]

/-- Closed instance of the transpose contract at cell (0, 1) of a concrete
two-by-two table. -/
theorem c4_witness :
    (applyTranspose true (Table.mk [['a'], ['b']] [['x'], ['y']]
        [[['p'], ['q']], [['r'], ['s']]])).colLabels = [['x'], ['y']] ∧
    (applyTranspose true (Table.mk [['a'], ['b']] [['x'], ['y']]
        [[['p'], ['q']], [['r'], ['s']]])).rowLabels = [['a'], ['b']] ∧
    (((applyTranspose true (Table.mk [['a'], ['b']] [['x'], ['y']]
        [[['p'], ['q']], [['r'], ['s']]])).rows.getD 0 []).getD 1 []) =
      (((Table.mk [['a'], ['b']] [['x'], ['y']]
        [[['p'], ['q']], [['r'], ['s']]]).rows.getD 1 []).getD 0 []) :=
  c4_transpose_contract _ 0 1 (by decide) (by decide)

/-- C8 counterexample: the three-character string holding a blank, the digit
three and a blank does not consist entirely of digits, yet the entry point
turns it into the zero-based index 3 instead of a sheet name. -/
theorem c8_counterexample :
    sheetIdentifier " 3 " = SheetSelector.byIndex 3 ∧
      (" 3 ".data.all Char.isDigit) = false := by
  decide

/-- C8 as amended: the entry point first strips surrounding whitespace; a
stripped remainder that is nonempty and entirely digits becomes the zero-based
index with its decimal value, and any other remainder becomes the sheet name
given by the stripped text. -/
theorem c8_amended_rule (s : String) :
    (isDigitString (stripChars s.data) = true →
      sheetIdentifier s =
        SheetSelector.byIndex (digitsToNat (stripChars s.data))) ∧
    (isDigitString (stripChars s.data) = false →
      sheetIdentifier s = SheetSelector.byName (String.mk (stripChars s.data))) := by
  constructor
  · intro h
    simp [sheetIdentifier, h]
  · intro h
    simp [sheetIdentifier, h]

/-- Closed instances of the amended parsing rule on a digit selector with
padding and on a plain name selector. -/
theorem c8_witness :
    sheetIdentifier " 42 " = SheetSelector.byIndex 42 ∧
      sheetIdentifier "Totals" = SheetSelector.byName "Totals" := by
  constructor
  · exact (c8_amended_rule " 42 ").1 (by decide)
  · have h := (c8_amended_rule "Totals").2 (by decide)
    rw [h]
    decide

/-- C9: each conversion is deterministic and free of shared state: two runs
over file systems agreeing on the source path, with equal options, produce the
same error outcome, and on success the destination holds equal contents. -/
theorem c9_deterministic (fs1 fs2 : FS) (src dst sheetName : String)
    (d : Char) (hh tr idx hdr : Bool) (sel : SheetSelector)
    (hsrc : fsLookup fs1 src = fsLookup fs2 src) :
    ((csv_to_excel fs1 src dst sheetName d hh tr idx).2 =
        (csv_to_excel fs2 src dst sheetName d hh tr idx).2 ∧
      ((csv_to_excel fs1 src dst sheetName d hh tr idx).2 = none →
        fsLookup (csv_to_excel fs1 src dst sheetName d hh tr idx).1 dst =
          fsLookup (csv_to_excel fs2 src dst sheetName d hh tr idx).1 dst)) ∧
    ((excel_to_csv fs1 src dst sel d tr idx hdr).2 =
        (excel_to_csv fs2 src dst sel d tr idx hdr).2 ∧
      ((excel_to_csv fs1 src dst sel d tr idx hdr).2 = none →
        fsLookup (excel_to_csv fs1 src dst sel d tr idx hdr).1 dst =
          fsLookup (excel_to_csv fs2 src dst sel d tr idx hdr).1 dst)) := by
  constructor
  · simp only [csv_to_excel, ← hsrc]
    cases hc : fsLookup fs1 src with
    | none => simp
    | some v =>
      cases v with
      | excelFile wb => simp
      | csvFile text =>
        cases hr : readCsvText d hh text with
        | error e => simp [hr]
        | ok frame => simp [hr, fsWrite, fsLookup]
  · simp only [excel_to_csv, ← hsrc]
    cases hc : fsLookup fs1 src with
    | none => simp
    | some v =>
      cases v with
      | csvFile text => simp
      | excelFile wb =>
        cases hw : findSheet wb sel with
        | none => simp [hw]
        | some sheet => simp [hw, fsWrite, fsLookup]

/-- Closed instance of determinism: two runs on the empty file system agree on
the error outcome of both operations. -/
theorem c9_witness :
    (csv_to_excel [] "a.csv" "b.xlsx" "Sheet1" ',' true false false).2 =
        (csv_to_excel [] "a.csv" "b.xlsx" "Sheet1" ',' true false false).2 ∧
      (excel_to_csv [] "a.csv" "b.xlsx" (SheetSelector.byIndex 0) ','
          false false true).2 =
        (excel_to_csv [] "a.csv" "b.xlsx" (SheetSelector.byIndex 0) ','
          false false true).2 :=
  ⟨(c9_deterministic [] [] "a.csv" "b.xlsx" "Sheet1" ',' true false false true
      (SheetSelector.byIndex 0) rfl).1.1,
    (c9_deterministic [] [] "a.csv" "b.xlsx" "Sheet1" ',' true false false true
      (SheetSelector.byIndex 0) rfl).2.1⟩

/-- Every diagnostic message is its stage-naming prefix followed by its cause
part. -/
theorem message_eq_stage_cause (e : ConversionError) :
    e.message = e.stageText ++ e.causeText := by
  cases e <;> simp [ConversionError.message, ConversionError.stageText,
    ConversionError.causeText, String.append_assoc]

/-- C3: with a nonexistent source path each conversion operation stops with
the error classified as source-not-found and returns the file system
unchanged, so no destination file and no directory is created. -/
theorem c3_missing_source (fs : FS) (src dst sheetName : String) (d : Char)
    (hh tr idx hdr : Bool) (sel : SheetSelector)
    (h : fsLookup fs src = none) :
    csv_to_excel fs src dst sheetName d hh tr idx =
        (fs, some (ConversionError.csvNotFound src)) ∧
      (ConversionError.csvNotFound src).kind = ErrorKind.sourceNotFound ∧
      excel_to_csv fs src dst sel d tr idx hdr =
        (fs, some (ConversionError.excelNotFound src)) ∧
      (ConversionError.excelNotFound src).kind = ErrorKind.sourceNotFound := by
  refine ⟨?_, rfl, ?_, rfl⟩
  · simp [csv_to_excel, h]
  · simp [excel_to_csv, h]

/-- Closed instance of the missing-source behaviour on the empty file
system. -/
theorem c3_witness :
    csv_to_excel [] "gone.csv" "out.xlsx" "Sheet1" ',' true false false =
        ([], some (ConversionError.csvNotFound "gone.csv")) ∧
      (ConversionError.csvNotFound "gone.csv").kind = ErrorKind.sourceNotFound ∧
      excel_to_csv [] "gone.csv" "out.xlsx" (SheetSelector.byIndex 0) ','
          false false true =
        ([], some (ConversionError.excelNotFound "gone.csv")) ∧
      (ConversionError.excelNotFound "gone.csv").kind = ErrorKind.sourceNotFound :=
  c3_missing_source [] "gone.csv" "out.xlsx" "Sheet1" ',' true false false true
    (SheetSelector.byIndex 0) rfl

/-- C5: when the parsed nonblank lines of the text are l0 followed by rest,
the header-enabled read takes l0 as the column labels and only rest as data
rows, the header-disabled read takes every line as a data row, and the latter
yields exactly one more data row than the former. -/
theorem c5_header_flag (d : Char) (text : List Char) (l0 : List Char)
    (rest : List (List Char))
    (hlines : (splitOnChar '\n' text).filter (fun l => !l.isEmpty) = l0 :: rest) :
    ∃ tH tN, readCsvText d true text = Except.ok tH ∧
      readCsvText d false text = Except.ok tN ∧
      tH.colLabels = splitOnChar d l0 ∧
      tH.rows = rest.map (splitOnChar d) ∧
      tN.rows = (l0 :: rest).map (splitOnChar d) ∧
      tN.rows.length = tH.rows.length + 1 := by
  refine ⟨⟨splitOnChar d l0, synthLabels rest.length, rest.map (splitOnChar d)⟩,
    ⟨synthLabels (splitOnChar d l0).length, synthLabels (rest.length + 1),
      (l0 :: rest).map (splitOnChar d)⟩, ?_, ?_, rfl, rfl, rfl, by simp⟩
  · simp [readCsvText, hlines]
  · simp [readCsvText, hlines]

/-- Closed instance of the header flag contrast on a two-line input. -/
theorem c5_witness :
    ∃ tH tN,
      readCsvText ',' true ("a,b\nc,d\n".data) = Except.ok tH ∧
      readCsvText ',' false ("a,b\nc,d\n".data) = Except.ok tN ∧
      tH.colLabels = splitOnChar ',' ("a,b".data) ∧
      tH.rows = [("c,d".data)].map (splitOnChar ',') ∧
      tN.rows = [("a,b".data), ("c,d".data)].map (splitOnChar ',') ∧
      tN.rows.length = tH.rows.length + 1 :=
  c5_header_flag ',' ("a,b\nc,d\n".data) ("a,b".data) [("c,d".data)] (by decide)

/-- C6: the text writer output is exactly the concatenation of one
newline-terminated line per emitted row, each line its cells joined by the
delimiter; the column labels form the first line when the header flag is set,
and with the index flag each data row gains its row label as an extra leading
cell while the label line gains a blank leading cell for the unnamed index. -/
theorem c6_writer_shape (d : Char) (idx hdr : Bool) (t : Table)
    (h : t.rowLabels.length = t.rows.length) :
    writeCsv d idx hdr t =
      (((if hdr then [if idx then [] :: t.colLabels else t.colLabels] else []) ++
          (if idx then List.zipWith (fun l r => l :: r) t.rowLabels t.rows
            else t.rows)).map
        (fun line => joinWithChar d line ++ ['\n'])).flatten := by
  have hfun : (fun line : List Cell => joinWithChar d line ++ ['\n']) = csvLine d := rfl
  rw [hfun]
  cases idx with
  | false => cases hdr <;> simp [writeCsv, writeCsvRows_false]
  | true => cases hdr <;> simp [writeCsv, writeCsvRows_true _ _ _ h]

/-- Closed instance of the writer shape with both flags set, on a concrete
one-row table. -/
theorem c6_witness :
    writeCsv ',' true true (Table.mk [['a'], ['b']] [['0']] [[['u'], ['v']]]) =
      (((if true then
            [if true then
              [] :: (Table.mk [['a'], ['b']] [['0']] [[['u'], ['v']]]).colLabels
            else (Table.mk [['a'], ['b']] [['0']] [[['u'], ['v']]]).colLabels]
          else []) ++
          (if true then
            List.zipWith (fun l r => l :: r)
              (Table.mk [['a'], ['b']] [['0']] [[['u'], ['v']]]).rowLabels
              (Table.mk [['a'], ['b']] [['0']] [[['u'], ['v']]]).rows
          else (Table.mk [['a'], ['b']] [['0']] [[['u'], ['v']]]).rows)).map
        (fun line => joinWithChar ',' line ++ ['\n'])).flatten :=
  c6_writer_shape ',' true true
    (Table.mk [['a'], ['b']] [['0']] [[['u'], ['v']]]) (by decide)

/-- C7: each command returns exit code 0 with nothing on the standard error
stream when the conversion succeeds, and on a conversion error returns exit
code 1 having printed a single diagnostic line made of the failure banner, the
stage-naming prefix and the cause of the raised error. -/
theorem c7_exit_behavior (fs : FS) (src dst sheetName : String) (d : Char)
    (hh tr idx hdr : Bool) (sel : SheetSelector) :
    (∀ fs2, csv_to_excel fs src dst sheetName d hh tr idx = (fs2, none) →
      commandCsvToExcel fs src dst sheetName d hh tr idx = ⟨fs2, 0, []⟩) ∧
    (∀ fs2 e, csv_to_excel fs src dst sheetName d hh tr idx = (fs2, some e) →
      commandCsvToExcel fs src dst sheetName d hh tr idx =
        ⟨fs2, 1, ["conversion failed: " ++ (e.stageText ++ e.causeText)]⟩) ∧
    (∀ fs2, excel_to_csv fs src dst sel d tr idx hdr = (fs2, none) →
      commandExcelToCsv fs src dst sel d tr idx hdr = ⟨fs2, 0, []⟩) ∧
    (∀ fs2 e, excel_to_csv fs src dst sel d tr idx hdr = (fs2, some e) →
      commandExcelToCsv fs src dst sel d tr idx hdr =
        ⟨fs2, 1, ["conversion failed: " ++ (e.stageText ++ e.causeText)]⟩) := by
  refine ⟨?_, ?_, ?_, ?_⟩
  · intro fs2 h
    simp [commandCsvToExcel, h]
  · intro fs2 e h
    simp [commandCsvToExcel, h, message_eq_stage_cause]
  · intro fs2 h
    simp [commandExcelToCsv, h]
  · intro fs2 e h
    simp [commandExcelToCsv, h, message_eq_stage_cause]

/-- Closed instance of the exit behaviour: the csv-to-excel command on a
missing source prints the diagnostic and returns 1. -/
theorem c7_witness :
    commandCsvToExcel [] "gone.csv" "out.xlsx" "Sheet1" ',' true false false =
      ⟨[], 1, ["conversion failed: " ++
        ((ConversionError.csvNotFound "gone.csv").stageText ++
          (ConversionError.csvNotFound "gone.csv").causeText)]⟩ :=
  (c7_exit_behavior [] "gone.csv" "out.xlsx" "Sheet1" ',' true false false true
      (SheetSelector.byIndex 0)).2.1 []
    (ConversionError.csvNotFound "gone.csv") (by decide)

/-- C1: a nonempty rectangular table with a header line, encoded as delimited
text with the default delimiter, converted to a workbook with the default
options and then back to delimited text with the default options, is
reproduced identically at the destination, data cells and column labels
preserved. -/
theorem c1_roundtrip (cells : List (List Cell)) (fs : FS) (src mid out : String)
    (hne : cells ≠ [])
    (hrect : ∀ r ∈ cells, r.length = (cells.headD []).length)
    (hcells : ∀ r ∈ cells, r ≠ [])
    (hfree : ∀ r ∈ cells, ∀ x ∈ r, ',' ∉ x ∧ '\n' ∉ x)
    (hjoin : ∀ r ∈ cells, joinWithChar ',' r ≠ [])
    (hfs : fsLookup fs src = some (FileContent.csvFile (encodeCsv ',' cells))) :
    ∃ fs1, csv_to_excel fs src mid "Sheet1" ',' true false false = (fs1, none) ∧
      ∃ fs2, excel_to_csv fs1 mid out (SheetSelector.byIndex 0) ','
          false false true = (fs2, none) ∧
        fsLookup fs2 out = some (FileContent.csvFile (encodeCsv ',' cells)) := by
  obtain ⟨c0, ctl, rfl⟩ := List.exists_cons_of_ne_nil hne
  have hparse := decode_lines_encodeCsv ',' (by decide) (c0 :: ctl) hfree hjoin
  have hc0 : splitOnChar ',' (joinWithChar ',' c0) = c0 :=
    splitOnChar_joinWithChar ',' c0 (hcells c0 (by simp))
      (fun x hx => (hfree c0 (by simp) x hx).1)
  have hsplit : (ctl.map (joinWithChar ',')).map (splitOnChar ',') = ctl := by
    have h2 := split_map_join ',' ctl
      (fun r hr => hcells r (List.mem_cons_of_mem _ hr))
      (fun r hr x hx => (hfree r (List.mem_cons_of_mem _ hr) x hx).1)
    rw [List.map_map]
    exact h2
  have hread : readCsvText ',' true (encodeCsv ',' (c0 :: ctl)) =
      Except.ok ⟨c0, synthLabels ctl.length, ctl⟩ := by
    simp only [readCsvText]
    rw [List.map_cons] at hparse
    rw [hparse]
    simp [hc0, hsplit]
  have hstep1 : csv_to_excel fs src mid "Sheet1" ',' true false false =
      (fsWrite fs mid (FileContent.excelFile [("Sheet1", c0 :: ctl)]), none) := by
    simp only [csv_to_excel, hfs, hread]
    simp [applyTranspose, toExcelSheet]
  have hlook1 : fsLookup
      (fsWrite fs mid (FileContent.excelFile [("Sheet1", c0 :: ctl)])) mid =
      some (FileContent.excelFile [("Sheet1", c0 :: ctl)]) := by
    simp [fsWrite, fsLookup]
  have hstep2 : excel_to_csv
      (fsWrite fs mid (FileContent.excelFile [("Sheet1", c0 :: ctl)]))
      mid out (SheetSelector.byIndex 0) ',' false false true =
      (fsWrite (fsWrite fs mid (FileContent.excelFile [("Sheet1", c0 :: ctl)]))
        out (FileContent.csvFile (encodeCsv ',' (c0 :: ctl))), none) := by
    simp only [excel_to_csv, hlook1]
    simp [findSheet, readExcelSheet, applyTranspose, writeCsv,
      writeCsvRows_false, encodeCsv]
  exact ⟨_, hstep1, _, hstep2, by simp [fsWrite, fsLookup]⟩

/-- Closed instance of the default-options round trip on the two-row scores
table from the regression test. -/
theorem c1_witness :
    ∃ fs1, csv_to_excel
        [("scores.csv", FileContent.csvFile (encodeCsv ','
          [["name".data, "score".data], ["Alice".data, "10".data],
            ["Bob".data, "12".data]]))]
        "scores.csv" "scores.xlsx" "Sheet1" ',' true false false =
        (fs1, none) ∧
      ∃ fs2, excel_to_csv fs1 "scores.xlsx" "roundtrip.csv"
          (SheetSelector.byIndex 0) ',' false false true = (fs2, none) ∧
        fsLookup fs2 "roundtrip.csv" = some (FileContent.csvFile (encodeCsv ','
          [["name".data, "score".data], ["Alice".data, "10".data],
            ["Bob".data, "12".data]])) :=
  c1_roundtrip
    [["name".data, "score".data], ["Alice".data, "10".data],
      ["Bob".data, "12".data]]
    [("scores.csv", FileContent.csvFile (encodeCsv ','
      [["name".data, "score".data], ["Alice".data, "10".data],
        ["Bob".data, "12".data]]))]
    "scores.csv" "scores.xlsx" "roundtrip.csv"
    (by decide) (by decide) (by decide) (by decide) (by decide) (by decide)

/-- C10: with the header flag cleared and transpose off, the conversion still
writes a label row of synthesized positional labels as the first worksheet
row, making the worksheet one row taller than the data, and converting the
workbook back with default options prepends that label line to the text, so
the original input is not reproduced. -/
theorem c10_noheader_label_row (cells : List (List Cell)) (fs : FS)
    (src mid out : String)
    (hne : cells ≠ [])
    (hcells : ∀ r ∈ cells, r ≠ [])
    (hfree : ∀ r ∈ cells, ∀ x ∈ r, ',' ∉ x ∧ '\n' ∉ x)
    (hjoin : ∀ r ∈ cells, joinWithChar ',' r ≠ [])
    (hfs : fsLookup fs src = some (FileContent.csvFile (encodeCsv ',' cells))) :
    ∃ sheet fs2 outText,
      csv_to_excel fs src mid "Sheet1" ',' false false false =
        (fsWrite fs mid (FileContent.excelFile [("Sheet1", sheet)]), none) ∧
      sheet = synthLabels (cells.headD []).length :: cells ∧
      sheet.length = cells.length + 1 ∧
      excel_to_csv (fsWrite fs mid (FileContent.excelFile [("Sheet1", sheet)]))
          mid out (SheetSelector.byIndex 0) ',' false false true = (fs2, none) ∧
      fsLookup fs2 out = some (FileContent.csvFile outText) ∧
      outText = csvLine ',' (synthLabels (cells.headD []).length) ++
        encodeCsv ',' cells ∧
      outText ≠ encodeCsv ',' cells := by
  obtain ⟨c0, ctl, rfl⟩ := List.exists_cons_of_ne_nil hne
  have hparse := decode_lines_encodeCsv ',' (by decide) (c0 :: ctl) hfree hjoin
  have hc0 : splitOnChar ',' (joinWithChar ',' c0) = c0 :=
    splitOnChar_joinWithChar ',' c0 (hcells c0 (by simp))
      (fun x hx => (hfree c0 (by simp) x hx).1)
  have hsplitAll : (joinWithChar ',' c0 :: ctl.map (joinWithChar ',')).map
      (splitOnChar ',') = c0 :: ctl := by
    have h2 := split_map_join ',' (c0 :: ctl) hcells
      (fun r hr x hx => (hfree r hr x hx).1)
    rw [show joinWithChar ',' c0 :: ctl.map (joinWithChar ',') =
      (c0 :: ctl).map (joinWithChar ',') from rfl, List.map_map]
    exact h2
  have hread : readCsvText ',' false (encodeCsv ',' (c0 :: ctl)) =
      Except.ok ⟨synthLabels c0.length, synthLabels (ctl.length + 1),
        c0 :: ctl⟩ := by
    simp only [readCsvText]
    rw [List.map_cons] at hparse
    rw [hparse]
    simp [hc0, hsplitAll]
  have hstep1 : csv_to_excel fs src mid "Sheet1" ',' false false false =
      (fsWrite fs mid (FileContent.excelFile
        [("Sheet1", synthLabels c0.length :: c0 :: ctl)]), none) := by
    simp only [csv_to_excel, hfs, hread]
    simp [applyTranspose, toExcelSheet]
  have hlook1 : fsLookup (fsWrite fs mid (FileContent.excelFile
      [("Sheet1", synthLabels c0.length :: c0 :: ctl)])) mid =
      some (FileContent.excelFile
        [("Sheet1", synthLabels c0.length :: c0 :: ctl)]) := by
    simp [fsWrite, fsLookup]
  have hstep2 : excel_to_csv (fsWrite fs mid (FileContent.excelFile
        [("Sheet1", synthLabels c0.length :: c0 :: ctl)]))
      mid out (SheetSelector.byIndex 0) ',' false false true =
      (fsWrite (fsWrite fs mid (FileContent.excelFile
        [("Sheet1", synthLabels c0.length :: c0 :: ctl)])) out
        (FileContent.csvFile (csvLine ',' (synthLabels c0.length) ++
          encodeCsv ',' (c0 :: ctl))), none) := by
    simp only [excel_to_csv, hlook1]
    simp [findSheet, readExcelSheet, applyTranspose, writeCsv,
      writeCsvRows_false, encodeCsv]
  refine ⟨synthLabels c0.length :: c0 :: ctl, _, _, hstep1, rfl, by simp,
    hstep2, by simp [fsWrite, fsLookup], rfl, ?_⟩
  intro heq
  have hlen := congrArg List.length heq
  simp [csvLine] at hlen
  omega

/-- Closed instance of the no-header behaviour on a two-by-two digit table:
the synthesized label row is written and the round trip output differs from
the input. -/
theorem c10_witness :
    ∃ sheet fs2 outText,
      csv_to_excel
          [("m.csv", FileContent.csvFile
            (encodeCsv ',' [[['1'], ['2']], [['3'], ['4']]]))]
          "m.csv" "m.xlsx" "Sheet1" ',' false false false =
        (fsWrite
          [("m.csv", FileContent.csvFile
            (encodeCsv ',' [[['1'], ['2']], [['3'], ['4']]]))]
          "m.xlsx" (FileContent.excelFile [("Sheet1", sheet)]), none) ∧
      sheet = synthLabels
          (([[['1'], ['2']], [['3'], ['4']]] : List (List Cell)).headD []).length ::
        [[['1'], ['2']], [['3'], ['4']]] ∧
      sheet.length = ([[['1'], ['2']], [['3'], ['4']]] : List (List Cell)).length + 1 ∧
      excel_to_csv (fsWrite
          [("m.csv", FileContent.csvFile
            (encodeCsv ',' [[['1'], ['2']], [['3'], ['4']]]))]
          "m.xlsx" (FileContent.excelFile [("Sheet1", sheet)]))
          "m.xlsx" "back.csv" (SheetSelector.byIndex 0) ',' false false true =
        (fs2, none) ∧
      fsLookup fs2 "back.csv" = some (FileContent.csvFile outText) ∧
      outText = csvLine ',' (synthLabels
          (([[['1'], ['2']], [['3'], ['4']]] : List (List Cell)).headD []).length) ++
        encodeCsv ',' [[['1'], ['2']], [['3'], ['4']]] ∧
      outText ≠ encodeCsv ',' [[['1'], ['2']], [['3'], ['4']]] :=
  c10_noheader_label_row [[['1'], ['2']], [['3'], ['4']]]
    [("m.csv", FileContent.csvFile
      (encodeCsv ',' [[['1'], ['2']], [['3'], ['4']]]))]
    "m.csv" "m.xlsx" "back.csv"
    (by decide) (by decide) (by decide) (by decide) (by decide)
